import Mathlib

/-!
Shallow embedding of `include/arinc429/arinc429.h` (namespace `eld::arinc429`),
a header-only codec for 32-bit ARINC 429 protocol words, together with proofs
about it.

Modelling conventions:
- `traits::word_raw_type` (`uint32_t`) is modelled as `Nat`; all bit
  manipulation is on `Nat` with explicit masks, so word values live in
  `[0, 2^32)` wherever the code masks them.
- C++ functions with reference out-parameters are modelled as functions
  returning the final values of those parameters.  A parameter the C++
  code receives *by value* cannot be written back to the caller; the model
  reflects this by simply not returning it.
- The data-descriptor concept (a type exposing `lsb()`, `msb()`,
  `value_type`, `name_type`, `scale_factor_type`, and optionally custom
  `operator()` get/set overloads) is modelled as the structure
  `DataDescriptor`; the signedness of the integral `value_type` is carried
  by the `is_signed` flag, and the optional custom codec by `customGet` /
  `customSet`.
- Compile-time failures (`static_assert`s, ill-formed instantiations) are
  modelled as `Except` error values respectively as propositional fields of
  the structures embedding the class templates.
- Several conversion bodies in the header are `// TODO: implement` stubs;
  they are embedded as stubs (the out-parameter is returned unchanged).
  Where a claim requires the missing behaviour, a second definition whose
  doc comment starts with `Modelled from the spec:` follows the prose of
  the specification and is clearly kept apart from the source embedding.
-/

namespace Arinc429

/-- `traits::word_size = sizeof(uint32_t) * CHAR_BIT = 32`. -/
def traits_word_size : Nat := 32

/-- Errors issued by the `static_assert`s of the default `data_descriptor`
class template (`"Invalid bit range!"` and `"MSB exceeds maximum index"`). -/
inductive DescriptorError where
  | LayoutError
  | OutOfRangeError
deriving DecidableEq, Repr

/-- Errors arising inside `traits::get_data_descriptor`: the two
`static_assert`s, and the hard error of `std::tuple_element<0, std::tuple<>>`
when the filtered descriptor list is empty yet the asserts were disabled by a
non-void `NotFoundPlaceholder`. -/
inductive LookupError where
  | NotFoundError
  | AmbiguousNameError
  | EmptyElementError
deriving DecidableEq, Repr

/-- Model of the data-descriptor concept checked by `traits::is_valid_data`:
a name identity (`name_type`, modelled as a `Nat` tag), the 1-based inclusive
bit bounds `lsb()`/`msb()`, the `std::ratio` scale factor `num`/`den`, the
signedness of the integral `value_type`, and the optional custom codec
(`operator()(T&, word, tag_get)` / `operator()(const T&, word&, tag_set)`). -/
structure DataDescriptor where
  name : Nat
  lsb : Nat
  msb : Nat
  num : Int
  den : Int
  is_signed : Bool
  customGet : Option (Nat → Int)
  customSet : Option (Int → Nat → Nat)

/-- `traits::defines_getter<T, ValueType>`: detects the custom getter
`operator()(ValueType&, word, tag_get)`. -/
def defines_getter (d : DataDescriptor) : Bool :=
  d.customGet.isSome

/-- The argument `double(scale_factor_t::num / scale_factor_t::den)` computed
by `detail::get_value<DataDescriptor>` / `detail::set_value<DataDescriptor>`
(lines 324 and 397 of the header): the division `num / den` is *integer*
division (C++ truncation toward zero, `Int.tdiv`), performed before the
conversion to `double`.  The exact value is modelled in `ℚ`. -/
def code_scale_factor (num den : Int) : ℚ :=
  ((Int.tdiv num den : Int) : ℚ)

/-- `detail::get_integral_value(T&, word, lsb, msb, is_signed)`: both
overloads are `// TODO: implement` stubs, so the destination out-parameter is
returned unchanged. -/
def get_integral_value (dest : Int) (_wordRaw _lsb _msb : Nat)
    (_is_signed : Bool) : Int :=
  dest

/-- `detail::get_value(T&, word, lsb, msb, scaleFactor, false_type)`: the
non-floating overload, which forwards to `detail::get_integral_value`
dispatching on `std::is_signed<T>`. -/
def get_value_integral (dest : Int) (wordRaw lsb msb : Nat)
    (_scaleFactor : ℚ) (is_signed : Bool) : Int :=
  get_integral_value dest wordRaw lsb msb is_signed

/-- `detail::get_value(T&, word, lsb, msb, scaleFactor, true_type)`: the
floating-point overload.  Its body is a `// TODO: implement` stub, so the
destination is returned unchanged; the `double` values are modelled in `ℚ`. -/
def get_value_float (dest : ℚ) (_wordRaw _lsb _msb : Nat)
    (_scaleFactor : ℚ) : ℚ :=
  dest

/-- `detail::set_integral_value(const T&, word&, lsb, msb, is_signed)`: both
overloads are `// TODO: implement` stubs, so the word out-parameter is
returned unchanged. -/
def set_integral_value (_value : Int) (wordRaw : Nat) (_lsb _msb : Nat)
    (_is_signed : Bool) : Nat :=
  wordRaw

/-- `detail::get_value<DataDescriptor>(ValueType&, word, defines_getter)`:
dispatches on `traits::defines_getter`.  With a custom getter the descriptor's
`operator()(retVal, wordRaw, tag_get())` is invoked on the raw word; otherwise
the generic overload runs with the descriptor's bounds and the scale argument
`double(num / den)`. -/
def detail_get_value (d : DataDescriptor) (retVal : Int) (wordRaw : Nat) :
    Int :=
  match d.customGet with
  | some g => g wordRaw
  | none =>
      get_value_integral retVal wordRaw d.lsb d.msb
        (code_scale_factor d.num d.den) d.is_signed

/-- The float instantiation of `detail::get_value<DataDescriptor>` for a
descriptor without a custom getter (lines 311–326): it calls the floating
overload with the scale argument `double(num / den)`. -/
def detail_get_value_float (lsb msb : Nat) (num den : Int) (retVal : ℚ)
    (wordRaw : Nat) : ℚ :=
  get_value_float retVal wordRaw lsb msb (code_scale_factor num den)

/-- The public `get_value<DataDescriptor>(ValueType&, word)` (lines 431–439):
forwards to `detail::get_value<DataDescriptor>` with the
`traits::defines_getter` dispatch. -/
def get_value (d : DataDescriptor) (retVal : Int) (wordRaw : Nat) : Int :=
  detail_get_value d retVal wordRaw

/-- The public `set_value<DataDescriptor>(const ValueType&, word&)` as written
in the source (lines 454–462): its body calls
`detail::get_value<DataDescriptor>(value, wordRaw, defines_getter{})` — the
*getter* dispatch — and `detail::get_value` receives the raw word **by
value**, so the caller's word reference is never written.  The result models
the pair (final value of the `wordRaw` reference, out-value of the dispatched
getter call). -/
def set_value (d : DataDescriptor) (value : Int) (wordRaw : Nat) :
    Nat × Int :=
  (wordRaw, detail_get_value d value wordRaw)

/-- The capacity quantity of `word_generic`'s `static_assert`:
`detail::sum(traits_t<D>::msb() - traits_t<D>::lsb() ...)`. -/
def sum_widths (ds : List DataDescriptor) : Nat :=
  (ds.map fun d => d.msb - d.lsb).sum

/-- `traits::get_data_descriptor<NameType, TupleDataDescriptors,
NotFoundPlaceholder>`: filters the descriptor list by name.  The first
`static_assert` fires (`NotFoundError`) only when no fallback placeholder was
supplied and the filter is empty; the second fires on two or more matches
(`AmbiguousNameError`).  The member `type` is then
`std::tuple_element<0, filtered_t>::type`, which on an *empty* filtered tuple
is ill-formed (`EmptyElementError`) — the fallback placeholder is never
consulted to produce a result. -/
def get_data_descriptor (nm : Nat) (ds : List DataDescriptor)
    (fallback : Option DataDescriptor) : Except LookupError DataDescriptor :=
  let filtered := ds.filter fun d => d.name == nm
  if fallback.isNone && (filtered.length == 0) then
    Except.error LookupError.NotFoundError
  else if 2 ≤ filtered.length then
    Except.error LookupError.AmbiguousNameError
  else
    match filtered with
    | [] => Except.error LookupError.EmptyElementError
    | d :: _ => Except.ok d

/-- `word_generic<DataDescriptors...>`: the class template's
`static_assert` (sum of `msb() - lsb()` at most `traits::word_size`) is part
of the type's definition, so it is a propositional field: no instance of a
word type violating the capacity bound can exist. -/
structure word_generic where
  descriptors : List DataDescriptor
  capacity_ok : sum_widths descriptors ≤ traits_word_size
  raw_word : Nat

/-- `word_generic::get<NameType>()`: resolves the descriptor (compile-time
lookup, no fallback), value-initialises `retVal{}` and calls the public
`get_value<data_descriptor_t>(retVal, raw_word_)`.  The method only reads
`raw_word_` (and passes it by value), so the container state it returns is
unchanged. -/
def word_generic.get (w : word_generic) (nm : Nat) :
    Except LookupError Int × word_generic :=
  match get_data_descriptor nm w.descriptors none with
  | Except.error e => (Except.error e, w)
  | Except.ok d => (Except.ok (get_value d 0 w.raw_word), w)

/-- `word_generic::set<NameType, T>(const T&)`: resolves the descriptor and
calls the public `set_value<data_descriptor_t>(value, raw_word_)`, passing the
stored word by reference; the new stored word is whatever that call leaves in
the reference. -/
def word_generic.set (w : word_generic) (nm : Nat) (value : Int) :
    Except LookupError Unit × word_generic :=
  match get_data_descriptor nm w.descriptors none with
  | Except.error e => (Except.error e, w)
  | Except.ok d =>
      (Except.ok (), { w with raw_word := (set_value d value w.raw_word).1 })

/-- `word_generic::get_raw()`. -/
def word_generic.get_raw (w : word_generic) : Nat :=
  w.raw_word

/-- `word_generic::set_raw(word)`. -/
def word_generic.set_raw (w : word_generic) (rawWord : Nat) : word_generic :=
  { w with raw_word := rawWord }

/-- `word_generic::operator word_generic<ArgsT...>() const`: builds the
target word type directly from `get_raw()`.  The target type's own capacity
`static_assert` must hold for the target type to exist at all; no other check
is performed. -/
def word_generic.reinterpret (w : word_generic) (ds : List DataDescriptor)
    (h : sum_widths ds ≤ traits_word_size) : word_generic :=
  ⟨ds, h, w.get_raw⟩

/-- The two `static_assert`s of the default `data_descriptor<NameType, LSB,
MSB, ValueType, ScaleFactorT>` class template, evaluated at class definition
time, before any instance exists: `LSB < MSB` (`"Invalid bit range!"`) and
`MSB <= traits::word_size` (`"MSB exceeds maximum index"`). -/
def descriptor_static_asserts (lsb msb : Nat) : List DescriptorError :=
  (if lsb < msb then [] else [DescriptorError.LayoutError]) ++
    (if msb ≤ traits_word_size then [] else [DescriptorError.OutOfRangeError])

/-- Definition of a `data_descriptor<NameType, LSB, MSB, ValueType,
ScaleFactorT>` instantiation: it yields a descriptor (with no custom codec)
exactly when both `static_assert`s pass. -/
def data_descriptor_mk (nm lsb msb : Nat) (sg : Bool) (num den : Int) :
    Except (List DescriptorError) DataDescriptor :=
  if descriptor_static_asserts lsb msb = [] then
    Except.ok
      { name := nm, lsb := lsb, msb := msb, num := num, den := den,
        is_signed := sg, customGet := none, customSet := none }
  else
    Except.error (descriptor_static_asserts lsb msb)

/-- Right-aligned extraction of the 1-based inclusive bit range `[lsb, msb]`
of a raw word: `(word >> (lsb-1)) & (2^(msb-lsb+1) - 1)`. -/
def extract_field (wordRaw lsb msb : Nat) : Nat :=
  (wordRaw >>> (lsb - 1)) &&& (2 ^ (msb - lsb + 1) - 1)

/-- Modelled from the spec: the body of the signed overload of
`detail::get_integral_value` is a `// TODO: implement` stub in the source;
§4.4 of the specification prescribes extracting bits `[lsb, msb]`,
right-aligning them, and sign-extending from the field's own most-significant
bit (bit `msb - lsb`) — two's-complement decoding of the extracted field. -/
def get_integral_value_signed_spec (wordRaw lsb msb : Nat) : Int :=
  if 2 ^ (msb - lsb) ≤ extract_field wordRaw lsb msb then
    (extract_field wordRaw lsb msb : Int) - 2 ^ (msb - lsb + 1)
  else
    (extract_field wordRaw lsb msb : Int)

/-- Modelled from the spec: the body of `detail::set_integral_value` is a
`// TODO: implement` stub in the source; §4.4 prescribes masking the value to
`msb - lsb + 1` bits (two's complement for negatives), shifting it into
position, and OR-ing it into a copy of the raw word after clearing the target
bit range with a precomputed mask. -/
def set_integral_value_spec (value : Int) (wordRaw : Nat) (lsb msb : Nat) :
    Nat :=
  (wordRaw &&&
      ((2 ^ traits_word_size - 1) ^^^
        ((2 ^ (msb - lsb + 1) - 1) <<< (lsb - 1)))) |||
    ((value.emod (2 ^ (msb - lsb + 1))).toNat <<< (lsb - 1))

/-- Modelled from the spec: the scale argument §4.4 prescribes —
`scale_factor.numerator / scale_factor.denominator` computed in double (or
wider) precision, i.e. exact rational division, not integer division. -/
def spec_scale_factor (num den : Int) : ℚ :=
  (num : ℚ) / (den : ℚ)

/-- Modelled from the spec: the floating-point get path of §4.4 (the source
body is a `// TODO: implement` stub): perform the signed or unsigned integral
extraction as dictated by the field's signedness, then multiply the resulting
integer by the exact scale ratio. -/
def get_float_value_spec (wordRaw lsb msb : Nat) (sg : Bool)
    (num den : Int) : ℚ :=
  (if sg then (get_integral_value_signed_spec wordRaw lsb msb : ℚ)
   else (extract_field wordRaw lsb msb : ℚ)) * spec_scale_factor num den

/-- Inserting a field value below `2^w` at offset `s` (after clearing the
range with the complemented 32-bit mask) and extracting the same range
recovers the value, provided the range fits in the 32-bit word. -/
theorem extract_insert (word e s w : Nat) (he : e < 2 ^ w)
    (hsw : s + w ≤ 32) :
    ((((word &&& ((2 ^ 32 - 1) ^^^ ((2 ^ w - 1) <<< s))) ||| (e <<< s)) >>>
        s) &&&
      (2 ^ w - 1)) = e := by
  apply Nat.eq_of_testBit_eq
  intro i
  simp only [Nat.testBit_and, Nat.testBit_or, Nat.testBit_shiftRight,
    Nat.testBit_shiftLeft, Nat.testBit_xor, Nat.testBit_two_pow_sub_one,
    Nat.add_sub_cancel_left, ge_iff_le, Nat.le_add_right, decide_True,
    Bool.true_and]
  by_cases hi : i < w
  · have h32 : s + i < 32 := by omega
    simp [hi, h32, Nat.add_sub_cancel_left]
  · have he' : e.testBit i = false :=
      Nat.testBit_lt_two_pow
        (lt_of_lt_of_le he (Nat.pow_le_pow_right (by norm_num) (by omega)))
    simp [hi, he']

/-- The two's-complement residue written by the spec-modelled setter is
recovered exactly by the raw field extraction. -/
theorem extract_set_integral_spec (value : Int) (word lsb msb : Nat)
    (h1 : 1 ≤ lsb) (h2 : lsb ≤ msb) (h3 : msb ≤ 32) :
    extract_field (set_integral_value_spec value word lsb msb) lsb msb =
      (value.emod (2 ^ (msb - lsb + 1))).toNat := by
  have hpos : (0 : Int) < 2 ^ (msb - lsb + 1) := by positivity
  have h0 : 0 ≤ value.emod (2 ^ (msb - lsb + 1)) :=
    Int.emod_nonneg value (ne_of_gt hpos)
  have hlt : value.emod (2 ^ (msb - lsb + 1)) < 2 ^ (msb - lsb + 1) :=
    Int.emod_lt_of_pos value hpos
  have he : (value.emod (2 ^ (msb - lsb + 1))).toNat < 2 ^ (msb - lsb + 1) := by
    rw [← Nat.cast_lt (α := ℤ), Int.toNat_of_nonneg h0]
    push_cast
    exact hlt
  unfold set_integral_value_spec extract_field
  simp only [traits_word_size]
  exact extract_insert word _ (lsb - 1) (msb - lsb + 1) he (by omega)

/-- C2: for a signed integral field occupying bits `[lsb, msb]` of the 32-bit
word (field width `w = msb - lsb + 1`), encoding any value in
`[-2^(w-1), 2^(w-1) - 1]` with the set conversion and decoding the same bit
range with the get conversion returns the value exactly.  The conversion
bodies are TODO stubs in the source, so the spec-modelled definitions
`set_integral_value_spec` / `get_integral_value_signed_spec` are used. -/
theorem c2_signed_roundtrip (lsb msb word : Nat) (v : Int)
    (h1 : 1 ≤ lsb) (h2 : lsb ≤ msb) (h3 : msb ≤ traits_word_size)
    (hlo : -(2 ^ (msb - lsb)) ≤ v) (hhi : v ≤ 2 ^ (msb - lsb) - 1) :
    get_integral_value_signed_spec (set_integral_value_spec v word lsb msb)
      lsb msb = v := by
  have hx := extract_set_integral_spec v word lsb msb h1 h2 h3
  unfold get_integral_value_signed_spec
  rw [hx]
  set M : Int := 2 ^ (msb - lsb + 1) with hM
  have hMk : M = 2 * 2 ^ (msb - lsb) := by
    rw [hM, pow_succ]; ring
  have hKpos : (0 : Int) < 2 ^ (msb - lsb) := by positivity
  rcases le_or_lt 0 v with hv | hv
  · have hveq : v.emod M = v := Int.emod_eq_of_lt hv (by linarith)
    rw [hveq]
    have hcond : ¬ 2 ^ (msb - lsb) ≤ v.toNat := by
      intro hc
      have hc' : ((2 ^ (msb - lsb) : Nat) : Int) ≤ (v.toNat : Int) := by
        exact_mod_cast hc
      rw [Int.toNat_of_nonneg hv] at hc'
      push_cast at hc'
      linarith
    rw [if_neg hcond, Int.toNat_of_nonneg hv]
  · have hge : 0 ≤ v + M := by linarith
    have hlt2 : v + M < M := by linarith
    have hveq : v.emod M = v + M := by
      have h' : (v + M * 1).emod M = v.emod M := Int.add_mul_emod_self_left v M 1
      rw [mul_one] at h'
      rw [← h']
      exact Int.emod_eq_of_lt hge hlt2
    rw [hveq]
    have hcond : 2 ^ (msb - lsb) ≤ (v + M).toNat := by
      rw [← Nat.cast_le (α := ℤ), Int.toNat_of_nonneg hge]
      push_cast
      linarith
    rw [if_pos hcond, Int.toNat_of_nonneg hge]
    ring

/-- Closed witness for C2: field at bits `[11, 18]` (width 8), value `-3`,
starting word 5. -/
theorem c2_signed_roundtrip_witness :
    1 ≤ 11 ∧ (11 : Nat) ≤ 18 ∧ (18 : Nat) ≤ traits_word_size ∧
      -((2 : Int) ^ (18 - 11)) ≤ -3 ∧ (-3 : Int) ≤ 2 ^ (18 - 11) - 1 ∧
      get_integral_value_signed_spec (set_integral_value_spec (-3) 5 11 18)
        11 18 = -3 :=
  ⟨by decide, by decide, by decide, by decide, by decide,
    c2_signed_roundtrip 11 18 5 (-3) (by decide) (by decide) (by decide)
      (by decide) (by decide)⟩

/-- An unsigned 8-bit label field at bits `[1, 8]`, no custom codec
(`data_descriptor<label_t, 1, 8>`). -/
def dLabel : DataDescriptor :=
  { name := 1, lsb := 1, msb := 8, num := 1, den := 1, is_signed := false,
    customGet := none, customSet := none }

/-- The custom getter of `dCustom`, a user-defined
`operator()(value_type&, word, tag_get)`. -/
def exampleGetter : Nat → Int :=
  fun w => (w : Int) + 7

/-- A descriptor carrying a custom getter. -/
def dCustom : DataDescriptor :=
  { name := 3, lsb := 9, msb := 16, num := 1, den := 1, is_signed := false,
    customGet := some exampleGetter, customSet := none }

/-- A descriptor used only as a "not found" fallback placeholder type. -/
def dFallback : DataDescriptor :=
  { name := 99, lsb := 1, msb := 3, num := 1, den := 1, is_signed := false,
    customGet := none, customSet := none }

/-- `word_generic<dLabel>` holding the raw word 0. -/
def exampleWord : word_generic :=
  ⟨[dLabel], by decide, 0⟩

/-- `word_generic<dCustom>` holding the raw word 41. -/
def exampleWordCustom : word_generic :=
  ⟨[dCustom], by decide, 41⟩

/-- A descriptor set whose widths `msb - lsb` sum to 34 > 32. -/
def overflowing_descriptors : List DataDescriptor :=
  [{ name := 10, lsb := 1, msb := 32, num := 1, den := 1, is_signed := false,
     customGet := none, customSet := none },
   { name := 11, lsb := 1, msb := 4, num := 1, den := 1, is_signed := false,
     customGet := none, customSet := none }]

/-- C1: the claim says `set(name, value)` dispatches to the setter conversion
and replaces the stored raw word with the encoded word.  The code does not:
the public `set_value` calls `detail::get_value` (the getter dispatch), which
receives the raw word by value, so the stored raw word stays unchanged.
Evaluated at the failing input: a word over `dLabel` holding raw word 0, after
`set(label, 5)` the stored word is still 0, whereas the spec-modelled setter
path encodes 5. -/
theorem c1_set_uses_getter_path :
    (word_generic.set exampleWord 1 5).2.raw_word = 0 ∧
      set_integral_value_spec 5 0 1 8 = 5 := by
  exact ⟨rfl, by decide⟩

/-- C3: the claim says the floating get conversion multiplies the extracted
field integer by `num / den` in double precision, so scale `1/1000` with
field integer 12345 decodes to 12.345.  The code computes the scale argument
as `double(num / den)` — *integer* division, giving exactly 0 for `1/1000` —
and the floating conversion body itself is an unimplemented stub returning the
value-initialised destination 0; the spec-modelled conversion gives 12.345. -/
theorem c3_scale_factor_truncated :
    code_scale_factor 1 1000 = 0 ∧
      detail_get_value_float 1 14 1 1000 0 12345 = 0 ∧
      get_float_value_spec 12345 1 14 false 1 1000 = (12.345 : ℚ) ∧
      (12.345 : ℚ) ≠ 0 := by
  have ht : Int.tdiv 1 1000 = 0 := by decide
  have hextract : extract_field 12345 1 14 = 12345 := by decide
  have h1 : code_scale_factor 1 1000 = 0 := by
    rw [code_scale_factor, ht]
    norm_num
  refine ⟨h1, rfl, ?_, by norm_num⟩
  unfold get_float_value_spec
  simp only [Bool.false_eq_true, if_false, hextract, spec_scale_factor]
  norm_num

/-- C4: the claim says a lookup with an explicitly supplied "not found"
fallback type succeeds and yields the fallback when no descriptor matches.
The code only uses the fallback to disable the not-found `static_assert`; the
member `type` is still `std::tuple_element<0, std::tuple<>>`, which is
ill-formed, and the fallback is never yielded.  Evaluated at the failing
input: name 2 is absent from `[dLabel]` and `dFallback` is supplied, yet the
lookup fails instead of returning the fallback. -/
theorem c4_fallback_never_returned :
    get_data_descriptor 2 [dLabel] (some dFallback) =
      Except.error LookupError.EmptyElementError := rfl

/-- C5: a word type whose descriptor widths (`msb - lsb`) sum beyond the
32-bit word size is rejected by `word_generic`'s `static_assert` at type
definition time: no `word_generic` instance with such a descriptor set can
exist. -/
theorem c5_capacity_rejection (ds : List DataDescriptor)
    (h : traits_word_size < sum_widths ds) (w : word_generic) :
    w.descriptors ≠ ds := by
  intro hEq
  have hok := w.capacity_ok
  rw [hEq] at hok
  omega

/-- Closed witness for C5: the two-descriptor set with widths 31 + 3 = 34. -/
theorem c5_capacity_rejection_witness :
    traits_word_size < sum_widths overflowing_descriptors ∧
      exampleWord.descriptors ≠ overflowing_descriptors :=
  ⟨by decide,
    c5_capacity_rejection overflowing_descriptors (by decide) exampleWord⟩

/-- C6: when a field's descriptor defines a custom getter, the word
container's `get` calls that custom operation with the raw word, and the
result coincides with the bare custom operation no matter what bit bounds,
scale factor, or signedness the descriptor declares — the generic conversion
engine is bypassed entirely for that field. -/
theorem c6_custom_getter_bypass (w : word_generic) (nm : Nat)
    (d : DataDescriptor) (g : Nat → Int)
    (hres : get_data_descriptor nm w.descriptors none = Except.ok d)
    (hg : d.customGet = some g) :
    (w.get nm).1 = Except.ok (g w.raw_word) ∧
      ∀ lb mb : Nat, ∀ nu de : Int, ∀ sg : Bool,
        get_value
            { d with lsb := lb, msb := mb, num := nu, den := de,
                     is_signed := sg } 0 w.raw_word =
          g w.raw_word := by
  constructor
  · unfold word_generic.get
    rw [hres]
    simp [get_value, detail_get_value, hg]
  · intro lb mb nu de sg
    simp [get_value, detail_get_value, hg]

/-- Closed witness for C6: the custom-getter descriptor `dCustom` inside
`exampleWordCustom` (raw word 41). -/
theorem c6_custom_getter_bypass_witness :
    get_data_descriptor 3 exampleWordCustom.descriptors none =
        Except.ok dCustom ∧
      dCustom.customGet = some exampleGetter ∧
      (exampleWordCustom.get 3).1 =
        Except.ok (exampleGetter exampleWordCustom.raw_word) :=
  ⟨rfl, rfl,
    (c6_custom_getter_bypass exampleWordCustom 3 dCustom exampleGetter rfl
        rfl).1⟩

/-- C7: the `data_descriptor` template's construction-time checks: `lsb >=
msb` raises the layout `static_assert`, `msb > 32` raises the out-of-range
`static_assert`, and a descriptor with `lsb < msb` and `msb <= 32` is
accepted (instantiated with no custom codec). -/
theorem c7_descriptor_checks (lsb msb : Nat) :
    (msb ≤ lsb →
        DescriptorError.LayoutError ∈ descriptor_static_asserts lsb msb) ∧
      (traits_word_size < msb →
        DescriptorError.OutOfRangeError ∈
          descriptor_static_asserts lsb msb) ∧
      (lsb < msb → msb ≤ traits_word_size →
        ∀ nm : Nat, ∀ sg : Bool, ∀ nu de : Int,
          data_descriptor_mk nm lsb msb sg nu de =
            Except.ok
              { name := nm, lsb := lsb, msb := msb, num := nu, den := de,
                is_signed := sg, customGet := none, customSet := none }) := by
  refine ⟨?_, ?_, ?_⟩
  · intro h
    unfold descriptor_static_asserts
    rw [if_neg (by omega)]
    simp
  · intro h
    have hno : ¬ msb ≤ traits_word_size := by omega
    unfold descriptor_static_asserts
    rw [if_neg hno]
    simp
  · intro h1 h2 nm sg nu de
    simp [data_descriptor_mk, descriptor_static_asserts, h1, h2]

/-- Closed witness for C7: `lsb = msb = 5` raises the layout error,
`msb = 40` the out-of-range error, and bits `[1, 8]` are accepted. -/
theorem c7_descriptor_checks_witness :
    ((5 : Nat) ≤ 5 ∧
        DescriptorError.LayoutError ∈ descriptor_static_asserts 5 5) ∧
      (traits_word_size < 40 ∧
        DescriptorError.OutOfRangeError ∈ descriptor_static_asserts 1 40) ∧
      ((1 : Nat) < 8 ∧ (8 : Nat) ≤ traits_word_size ∧
        data_descriptor_mk 7 1 8 false 1 1 =
          Except.ok
            { name := 7, lsb := 1, msb := 8, num := 1, den := 1,
              is_signed := false, customGet := none, customSet := none }) :=
  ⟨⟨by decide, (c7_descriptor_checks 5 5).1 (by decide)⟩,
    ⟨by decide, (c7_descriptor_checks 1 40).2.1 (by decide)⟩,
    ⟨by decide, by decide,
      (c7_descriptor_checks 1 8).2.2 (by decide) (by decide) 7 false 1 1⟩⟩

/-- C8: reinterpreting a word container as another word type sharing the
32-bit raw representation (`operator word_generic<ArgsT...>`) passes the raw
word through bit-for-bit: reading the raw value of the result equals the
original raw value, with no modification. -/
theorem c8_reinterpret_raw (w : word_generic) (ds : List DataDescriptor)
    (h : sum_widths ds ≤ traits_word_size) :
    (w.reinterpret ds h).get_raw = w.get_raw := rfl

/-- Closed witness for C8: `exampleWord` reinterpreted to the layout
`[dCustom]`. -/
theorem c8_reinterpret_raw_witness :
    sum_widths [dCustom] ≤ traits_word_size ∧
      (word_generic.reinterpret exampleWord [dCustom] (by decide)).get_raw =
        exampleWord.get_raw :=
  ⟨by decide, c8_reinterpret_raw exampleWord [dCustom] (by decide)⟩

/-- C9 counterexample: no single-bit descriptor (`lsb = msb = p`) is ever
accepted by the `data_descriptor` template — the `LSB < MSB` `static_assert`
rejects every such declaration, contradicting the claim that some single-bit
declaration is accepted. -/
theorem c9_counterexample :
    ¬ ∃ p : Nat, ∃ nm : Nat, ∃ sg : Bool, ∃ nu de : Int,
        ∃ d : DataDescriptor,
          data_descriptor_mk nm p p sg nu de = Except.ok d := by
  rintro ⟨p, nm, sg, nu, de, d, h⟩
  simp [data_descriptor_mk, descriptor_static_asserts] at h

/-- C9 amended: a field descriptor declaring a single-bit field
(`lsb = msb = p`) is rejected at construction time by the `LSB < MSB`
`static_assert` (the layout error), for every bit position `p`. -/
theorem c9_single_bit_rejected (p nm : Nat) (sg : Bool) (nu de : Int) :
    ∃ errs : List DescriptorError,
      data_descriptor_mk nm p p sg nu de = Except.error errs ∧
        DescriptorError.LayoutError ∈ errs := by
  refine ⟨descriptor_static_asserts p p, ?_, ?_⟩
  · have hne : descriptor_static_asserts p p ≠ [] := by
      unfold descriptor_static_asserts
      rw [if_neg (lt_irrefl p)]
      simp
    unfold data_descriptor_mk
    rw [if_neg hne]
  · unfold descriptor_static_asserts
    rw [if_neg (lt_irrefl p)]
    simp

/-- C10: `word_generic::get` for a name resolving to a descriptor leaves the
container's stored raw word unchanged. -/
theorem c10_get_preserves_raw (w : word_generic) (nm : Nat)
    (d : DataDescriptor)
    (h : get_data_descriptor nm w.descriptors none = Except.ok d) :
    (w.get nm).2.raw_word = w.raw_word := by
  unfold word_generic.get
  rw [h]

/-- Closed witness for C10: reading the label field of `exampleWord`. -/
theorem c10_get_preserves_raw_witness :
    get_data_descriptor 1 exampleWord.descriptors none = Except.ok dLabel ∧
      (exampleWord.get 1).2.raw_word = exampleWord.raw_word :=
  ⟨rfl, c10_get_preserves_raw exampleWord 1 dLabel rfl⟩

end Arinc429
